import Mathlib

/-!
Shallow embedding of the credential/token lifecycle of the cyclo-veda
backend (`backend/app/services/auth_service.py`, `backend/app/models/user.py`,
`backend/app/models/token.py`, `backend/app/auth/dependencies.py`).

Modelling conventions:
* Time is integer seconds (the `exp` claim and `datetime.now` both reduce to
  POSIX seconds via `timegm` inside python-jose).
* The bcrypt checksum and the HS256 MAC are idealized as collision-free
  functions (the checksum embeds password and salt; the MAC is the tuple of
  key, algorithm and payload, compared by equality).  This keeps every
  definition executable while preserving the control flow of the wrappers.
* Randomness (the bcrypt salt drawn per `hash` call) is passed explicitly.
* A Python exception escaping a function is modelled with `Except`.
-/

namespace CycloVeda

instance {ε α : Type} [DecidableEq ε] [DecidableEq α] : DecidableEq (Except ε α) :=
  fun a b =>
    match a, b with
    | .ok x, .ok y => if h : x = y then .isTrue (by simp [h]) else .isFalse (by simp [h])
    | .error x, .error y => if h : x = y then .isTrue (by simp [h]) else .isFalse (by simp [h])
    | .ok _, .error _ => .isFalse (by simp)
    | .error _, .ok _ => .isFalse (by simp)

/-- `str.lower()`, on the character list (ASCII case folding suffices for the
scheme keywords compared here). -/
def pyLower (s : String) : String := ⟨s.data.map Char.toLower⟩

/-! ### Password hasher: passlib `CryptContext(schemes=["bcrypt"])` -/

/-- Error raised by passlib when the digest cannot be identified as a hash of
a configured scheme (`UnknownHashError`). -/
inductive PasslibError
  | unknownHash
deriving DecidableEq

/-- The `$2b$` ident plus the fixed default cost, as emitted by passlib. -/
def bcryptIdent : String := "$2b$12$"

/-- Length of the base64 salt segment of a bcrypt digest. -/
def bcryptSaltLen : Nat := 22

/-- Idealized bcrypt checksum: deterministic in `(password, salt)` and
collision-free by construction (it embeds both inputs verbatim). -/
def bcryptChecksum (password salt : String) : String :=
  "bcrypt(" ++ password ++ "|" ++ salt ++ ")"

/-- A bcrypt digest string: ident, then the salt, then the checksum. -/
def mkBcryptDigest (password salt : String) : String :=
  bcryptIdent ++ salt ++ bcryptChecksum password salt

/-- Parse a digest string into `(salt, checksum)`; `none` models a digest
passlib cannot identify (wrong ident / too short). -/
def parseBcryptDigest (digest : String) : Option (String × String) :=
  if digest.data.take bcryptIdent.data.length = bcryptIdent.data ∧
      bcryptSaltLen ≤ (digest.data.drop bcryptIdent.data.length).length then
    some (⟨(digest.data.drop bcryptIdent.data.length).take bcryptSaltLen⟩,
          ⟨(digest.data.drop bcryptIdent.data.length).drop bcryptSaltLen⟩)
  else none

/-- `pwd_context.verify`: raises `UnknownHashError` on an unidentifiable
digest, otherwise recomputes the checksum with the digest's salt and
compares. -/
def cryptContextVerify (plain digest : String) : Except PasslibError Bool :=
  match parseBcryptDigest digest with
  | none => .error .unknownHash
  | some (salt, checksum) => .ok (bcryptChecksum plain salt == checksum)

/-- `pwd_context.hash`: the fresh random salt drawn by the call is passed
explicitly. -/
def cryptContextHash (password salt : String) : String :=
  mkBcryptDigest password salt

/-! ### Token codec: python-jose `jwt.encode` / `jwt.decode` (HS256) -/

/-- The claims dictionary, restricted to the keys this code reads or writes
(`sub`, `scopes`, `exp`); a missing key is `none`. -/
structure Payload where
  sub : Option String
  scopes : Option (List String)
  exp : Option Int
deriving DecidableEq

/-- A token string on the wire: either not three valid segments, or a
well-formed compact serialization with a header algorithm, a payload and a
signature segment. -/
inductive JoseToken
  | malformed (raw : String)
  | signed (alg : String) (payload : Payload) (sig : String × String × Payload)
deriving DecidableEq

/-- Idealized HS256 MAC over header and payload with the symmetric key:
collision-free by construction, checked by equality. -/
def hsSign (key alg : String) (p : Payload) : String × String × Payload :=
  (key, alg, p)

/-- `jose.jwt.encode(claims, key, algorithm=alg)`. -/
def joseEncode (p : Payload) (key alg : String) : JoseToken :=
  .signed alg p (hsSign key alg p)

/-- Errors raised by `jose.jwt.decode`; `ExpiredSignatureError` is a subclass
of `JWTError`, so both are caught by `except JWTError`. -/
inductive JWTError
  | decodeError
  | expiredSignature
deriving DecidableEq

/-- python-jose `_validate_exp` with leeway 0: raises only when
`exp < now`; a token whose `exp` equals `now` passes. -/
def validateExp (p : Payload) (now : Int) : Except JWTError Unit :=
  match p.exp with
  | none => .ok ()
  | some e => if e < now then .error .expiredSignature else .ok ()

/-- `jose.jwt.decode(token, key, algorithms=algs)` at time `now`: rejects a
malformed token, a header algorithm outside `algs`, a bad signature, and an
expired `exp` claim, in that order. -/
def joseDecode (t : JoseToken) (key : String) (algs : List String) (now : Int) :
    Except JWTError Payload :=
  match t with
  | .malformed _ => .error .decodeError
  | .signed alg p sig =>
    if alg ∈ algs then
      if sig = hsSign key alg p then
        match validateExp p now with
        | .error e => .error e
        | .ok _ => .ok p
      else .error .decodeError
    else .error .decodeError

/-! ### Models (`models/user.py`, `models/token.py`) -/

/-- The shape of a `fake_users_db` value (the dict stored per email). -/
structure UserDict where
  username : String
  email : String
  hashed_password : String
  is_active : Bool
deriving DecidableEq

/-- Pydantic `User` model: the safe projection (email, username, is_active,
roles); it has no password, hash or timestamp field. -/
structure User where
  email : String
  username : String
  is_active : Bool
  roles : List String
deriving DecidableEq

/-- `User(**user_dict)`: Pydantic ignores the extra `hashed_password` key and
fills `roles` from its default factory `list`. -/
def User.ofDict (d : UserDict) : User :=
  { email := d.email, username := d.username, is_active := d.is_active, roles := [] }

/-- A JSON value, as far as serializing a `User` needs. -/
inductive JsonVal
  | str (s : String)
  | bool (b : Bool)
  | arr (xs : List String)
deriving DecidableEq

/-- Pydantic serialization of `User`: exactly its four declared fields. -/
def User.model_dump (u : User) : List (String × JsonVal) :=
  [("email", .str u.email), ("username", .str u.username),
   ("is_active", .bool u.is_active), ("roles", .arr u.roles)]

/-- Pydantic `TokenData` model; `scopes` defaults to `[]` and `exp` to
`None` when the constructor receives only `email`. -/
structure TokenData where
  email : Option String
  scopes : List String
  exp : Option Int
deriving DecidableEq

/-! ### AuthService (`services/auth_service.py`) -/

def SECRET_KEY : String := "your-secret-key-change-this-in-production"

def ALGORITHM : String := "HS256"

def ACCESS_TOKEN_EXPIRE_MINUTES : Int := 30

def DEFAULT_TOKEN_EXPIRE_MINUTES : Int := 15

/-- `fake_users_db`: a dict keyed by email, looked up by exact key
equality. -/
abbrev Store := List (String × UserDict)

/-- `AuthService.verify_password`: delegates to `pwd_context.verify` with no
try/except, so a passlib error propagates to the caller. -/
def verify_password (plain_password hashed_password : String) :
    Except PasslibError Bool :=
  cryptContextVerify plain_password hashed_password

/-- `AuthService.get_password_hash` (salt drawn by the call made explicit). -/
def get_password_hash (password salt : String) : String :=
  cryptContextHash password salt

/-- `AuthService.get_user`: `if email in fake_users_db` then build the safe
`User` from the stored dict, else `None`. -/
def get_user (st : Store) (email : String) : Option User :=
  match st.lookup email with
  | some d => some (User.ofDict d)
  | none => none

/-- `AuthService.authenticate_user`: `get_user`, early `None` when absent,
then `verify_password` against the stored dict's hash; returns the `User` on
success; a passlib error from `verify_password` propagates. -/
def authenticate_user (st : Store) (email password : String) :
    Except PasslibError (Option User) :=
  match get_user st email, st.lookup email with
  | some user, some d =>
    match verify_password password d.hashed_password with
    | .error e => .error e
    | .ok b => if b then .ok (some user) else .ok none
  | _, _ => .ok none

/-- Expiry instant chosen by `create_access_token`: Python truthiness means
both `None` and `timedelta(0)` fall back to the 15 minute default. -/
def token_expire (expires_delta : Option Int) (now : Int) : Int :=
  match expires_delta with
  | some d => if d = 0 then now + DEFAULT_TOKEN_EXPIRE_MINUTES * 60 else now + d
  | none => now + DEFAULT_TOKEN_EXPIRE_MINUTES * 60

/-- `AuthService.create_access_token`: copy the data, overwrite `exp`, encode
with the module key and algorithm. -/
def create_access_token (data : Payload) (expires_delta : Option Int) (now : Int) :
    JoseToken :=
  joseEncode { data with exp := some (token_expire expires_delta now) }
    SECRET_KEY ALGORITHM

/-- `AuthService.verify_token`: decode (any `JWTError` is caught and becomes
`None`), then require the `sub` claim; on success build
`TokenData(email=email)` — `scopes` and `exp` take their defaults. -/
def verify_token (token : JoseToken) (now : Int) : Option TokenData :=
  match joseDecode token SECRET_KEY [ALGORITHM] now with
  | .error _ => none
  | .ok payload =>
    match payload.sub with
    | none => none
    | some email => some { email := some email, scopes := [], exp := none }

/-- `_initialize_mock_users`: seeds the store with the two test users, both
hashed from "password" (one salt drawn for the shared hash call). -/
def initialize_mock_users (salt : String) : Store :=
  let h := get_password_hash "password" salt
  [("admin@cycloveda.com", ⟨"admin", "admin@cycloveda.com", h, true⟩),
   ("user@example.com", ⟨"testuser", "user@example.com", h, true⟩)]

/-! ### State-passing view of the store

The Python functions read the module-global `fake_users_db`; to state frame
properties the same operations are given in state-passing style, returning
the store they leave behind.  `get_user` performs only a dict read. -/

def get_user_st (st : Store) (email : String) : Option User × Store :=
  (get_user st email, st)

/-- `authenticate_user` with the global store threaded explicitly through
each step (`get_user` read, dict index, `verify_password`). -/
def authenticate_user_st (st : Store) (email password : String) :
    Except PasslibError (Option User) × Store :=
  match get_user_st st email with
  | (none, st1) => (.ok none, st1)
  | (some user, st1) =>
    match st1.lookup email with
    | none => (.ok none, st1)
    | some d =>
      match verify_password password d.hashed_password with
      | .error e => (.error e, st1)
      | .ok b => if b then (.ok (some user), st1) else (.ok none, st1)

/-! ### Request guard (`auth/dependencies.py`) -/

/-- FastAPI `HTTPAuthorizationCredentials`: scheme keyword and token. -/
structure HTTPAuthCreds where
  scheme : String
  credentials : JoseToken

/-- Outcome of the `get_current_user` dependency: the user, or the
`HTTPException` raised (status code and detail). -/
inductive GuardResult
  | ok (u : User)
  | httpError (status : Nat) (detail : String)
deriving DecidableEq

def AUTH_SCHEME : String := "Bearer"

/-- `_create_credentials_exception`: a 401 with the given detail. -/
def create_credentials_exception (detail : String) : GuardResult :=
  .httpError 401 detail

/-- `get_current_user`: missing header, wrong scheme (case-insensitive
compare), failed `verify_token`, and unknown user each raise a 401 with
their own detail message. -/
def get_current_user (creds : Option HTTPAuthCreds) (st : Store) (now : Int) :
    GuardResult :=
  match creds with
  | none => create_credentials_exception "Missing Authorization header"
  | some c =>
    if pyLower c.scheme ≠ pyLower AUTH_SCHEME then
      create_credentials_exception
        ("Invalid authentication scheme. Expected: " ++ AUTH_SCHEME)
    else
      match verify_token c.credentials now with
      | none => create_credentials_exception "Invalid or expired token"
      | some token_data =>
        match (match token_data.email with
               | some e => get_user st e
               | none => none) with
        | none => create_credentials_exception "User not found"
        | some u => .ok u

/-! ### Helper lemmas -/

theorem data_mkBcryptDigest (pw salt : String) :
    (mkBcryptDigest pw salt).data =
      bcryptIdent.data ++ (salt.data ++ (bcryptChecksum pw salt).data) := by
  show (bcryptIdent.data ++ salt.data) ++ (bcryptChecksum pw salt).data = _
  rw [List.append_assoc]

theorem parseBcryptDigest_mk (pw salt : String) (h : salt.length = 22) :
    parseBcryptDigest (mkBcryptDigest pw salt) =
      some (salt, bcryptChecksum pw salt) := by
  have hsl : salt.data.length = 22 := h
  unfold parseBcryptDigest
  rw [data_mkBcryptDigest, List.take_left, List.drop_left]
  have hlen : bcryptSaltLen ≤ (salt.data ++ (bcryptChecksum pw salt).data).length := by
    rw [List.length_append, hsl]
    simp [bcryptSaltLen]
  rw [if_pos ⟨rfl, hlen⟩]
  simp only [bcryptSaltLen]
  rw [List.take_left' hsl, List.drop_left' hsl]

theorem cryptContextVerify_roundtrip (pw salt : String) (h : salt.length = 22) :
    cryptContextVerify pw (cryptContextHash pw salt) = .ok true := by
  unfold cryptContextVerify cryptContextHash
  rw [parseBcryptDigest_mk pw salt h]
  simp

theorem lookup_mem {st : Store} {k : String} {d : UserDict}
    (h : st.lookup k = some d) : (k, d) ∈ st := by
  induction st with
  | nil => simp [List.lookup] at h
  | cons p t ih =>
    rw [List.lookup] at h
    split at h
    · have hkey : k = p.1 := by
        rename_i heq
        simpa using heq
      have hval : p.2 = d := by simpa using h
      subst hkey
      rw [← hval]
      exact List.mem_cons_self _ _
    · exact List.mem_cons_of_mem _ (ih h)

theorem lookup_eq_none_of_not_mem {st : Store} {k : String}
    (h : k ∉ st.map Prod.fst) : st.lookup k = none := by
  induction st with
  | nil => rfl
  | cons p t ih =>
    rw [List.lookup]
    have hk : (k == p.1) = false := by
      have hne : k ≠ p.1 := by
        intro he
        exact h (by simp only [List.map_cons, List.mem_cons]; exact Or.inl he)
      simpa using hne
    rw [hk]
    exact ih (fun hm => h (by simp only [List.map_cons, List.mem_cons]; exact Or.inr hm))

theorem authenticate_user_eq (st : Store) (email password : String) :
    authenticate_user st email password =
      match st.lookup email with
      | none => .ok none
      | some d =>
        match verify_password password d.hashed_password with
        | .error e => .error e
        | .ok b => if b then .ok (some (User.ofDict d)) else .ok none := by
  unfold authenticate_user get_user
  cases st.lookup email <;> rfl

theorem get_current_user_some (c : HTTPAuthCreds) (st : Store) (now : Int) :
    get_current_user (some c) st now =
      if pyLower c.scheme ≠ pyLower AUTH_SCHEME then
        create_credentials_exception
          ("Invalid authentication scheme. Expected: " ++ AUTH_SCHEME)
      else
        match verify_token c.credentials now with
        | none => create_credentials_exception "Invalid or expired token"
        | some token_data =>
          match (match token_data.email with
                 | some e => get_user st e
                 | none => none) with
          | none => create_credentials_exception "User not found"
          | some u => .ok u := rfl

/-! ### Claim theorems -/

/-- C1 counterexample: encoding a claims payload whose scope list is
`["read"]` and decoding while still unexpired does not reconstruct the
payload — the scope list and the expiry instant are not returned. -/
theorem C1_counterexample :
    verify_token
        (create_access_token
          { sub := some "a@b.c", scopes := some ["read"], exp := none }
          (some 1000) 0) 500 ≠
      some { email := some "a@b.c", scopes := ["read"], exp := some 1000 } := by
  decide

/-- C1 (amended): for any claims payload with a subject, decoding the token
produced by `create_access_token` at any time up to the token's expiry
succeeds, but reconstructs only the subject email; the returned scope list
is the default `[]` and the returned expiry is the default `none`. -/
theorem C1_theorem (data : Payload) (delta : Option Int) (now now' : Int)
    (e : String) (hsub : data.sub = some e)
    (hexp : now' ≤ token_expire delta now) :
    verify_token (create_access_token data delta now) now' =
      some { email := some e, scopes := [], exp := none } := by
  unfold verify_token create_access_token joseEncode joseDecode validateExp
  simp [hsub, not_lt.mpr hexp]

/-- C1 witness: a concrete instantiation of the amended round-trip. -/
theorem C1_witness :
    verify_token
        (create_access_token
          { sub := some "a@b.c", scopes := some ["read"], exp := none }
          (some 1000) 0) 500 =
      some { email := some "a@b.c", scopes := [], exp := none } :=
  C1_theorem { sub := some "a@b.c", scopes := some ["read"], exp := none }
    (some 1000) 0 500 "a@b.c" rfl (by decide)

/-- C2: evaluating the code at the failing input — `verify_password` on a
digest that is not identifiable as bcrypt propagates passlib's
`UnknownHashError` instead of returning `false`, contradicting the repo's
own test `test_verify_password_bcrypt_error`. -/
theorem C2_raises_on_malformed_digest :
    verify_password "password" "hash" = .error .unknownHash := by
  decide

/-- C3: in each of the four rejection cases — structurally malformed token,
signature mismatch, expired claims, and missing subject — `verify_token`
returns the same single failure value `none`. -/
theorem C3_theorem (now : Int) :
    (∀ raw, verify_token (.malformed raw) now = none) ∧
    (∀ alg p sig, sig ≠ hsSign SECRET_KEY alg p →
        verify_token (.signed alg p sig) now = none) ∧
    (∀ p e, p.exp = some e → e < now →
        verify_token (joseEncode p SECRET_KEY ALGORITHM) now = none) ∧
    (∀ p, p.sub = none →
        verify_token (joseEncode p SECRET_KEY ALGORITHM) now = none) := by
  refine ⟨fun raw => rfl, ?_, ?_, ?_⟩
  · intro alg p sig hsig
    unfold verify_token joseDecode
    by_cases halg : alg = ALGORITHM
    · subst halg
      simp [hsig]
    · simp [halg]
  · intro p e hexp hlt
    unfold verify_token joseEncode joseDecode validateExp
    simp [hexp, hlt]
  · intro p hsub
    unfold verify_token joseEncode joseDecode validateExp
    cases hx : p.exp with
    | none => simp [hsub, hx]
    | some e =>
      by_cases hlt : e < now
      · simp [hx, hlt]
      · simp [hsub, hx, hlt]

/-- C3 witness: the four rejection cases at concrete inputs all yield
`none`. -/
theorem C3_witness :
    verify_token (.malformed "abc") 0 = none ∧
    verify_token
        (.signed "HS256" { sub := some "u", scopes := none, exp := none }
          ("", "HS256", { sub := some "u", scopes := none, exp := none })) 0 = none ∧
    verify_token
        (joseEncode { sub := some "u", scopes := none, exp := some (-5) }
          SECRET_KEY ALGORITHM) 0 = none ∧
    verify_token
        (joseEncode { sub := none, scopes := none, exp := some 99 }
          SECRET_KEY ALGORITHM) 0 = none :=
  ⟨(C3_theorem 0).1 "abc",
   (C3_theorem 0).2.1 "HS256" _ _ (by decide),
   (C3_theorem 0).2.2.1 _ (-5) rfl (by decide),
   (C3_theorem 0).2.2.2 _ rfl⟩

/-- C4 counterexample: a token whose `exp` claim equals the verification
time is accepted, not rejected — python-jose raises `ExpiredSignatureError`
only when `exp < now`, so the boundary is inclusive, not exclusive. -/
theorem C4_counterexample :
    verify_token
        (joseEncode { sub := some "u@x.com", scopes := none, exp := some 100 }
          SECRET_KEY ALGORITHM) 100 =
      some { email := some "u@x.com", scopes := [], exp := none } := by
  decide

/-- C4 (amended): for a well-signed token with a subject and an `exp` claim,
`verify_token` rejects it as expired exactly when `now > exp`; at
`now = exp` the token is still accepted (inclusive upper bound). -/
theorem C4_theorem (p : Payload) (s : String) (e now : Int)
    (hsub : p.sub = some s) (hexp : p.exp = some e) :
    verify_token (joseEncode p SECRET_KEY ALGORITHM) now = none ↔ e < now := by
  unfold verify_token joseEncode joseDecode validateExp
  by_cases hlt : e < now
  · simp [hexp, hlt]
  · simp [hsub, hexp, hlt]

/-- C4 witness: a token with `exp = 100` is rejected at time 101 and
accepted at time 100. -/
theorem C4_witness :
    verify_token
        (joseEncode { sub := some "u", scopes := none, exp := some 100 }
          SECRET_KEY ALGORITHM) 101 = none ∧
    ¬ verify_token
        (joseEncode { sub := some "u", scopes := none, exp := some 100 }
          SECRET_KEY ALGORITHM) 100 = none :=
  ⟨(C4_theorem { sub := some "u", scopes := none, exp := some 100 } "u" 100 101
      rfl rfl).mpr (by decide),
   fun h =>
    absurd ((C4_theorem { sub := some "u", scopes := none, exp := some 100 } "u"
      100 100 rfl rfl).mp h) (by decide)⟩

/-- C5: `authenticate_user` never consults `is_active`: a stored user whose
active flag is false but whose password is correct is still returned. -/
theorem C5_theorem (st : Store) (email password salt : String) (d : UserDict)
    (hlookup : st.lookup email = some d)
    (hinactive : d.is_active = false)
    (hsalt : salt.length = 22)
    (hpw : d.hashed_password = get_password_hash password salt) :
    authenticate_user st email password = .ok (some (User.ofDict d)) := by
  unfold authenticate_user get_user
  rw [hlookup]
  have hv : verify_password password d.hashed_password = .ok true := by
    rw [hpw]
    exact cryptContextVerify_roundtrip password salt hsalt
  simp [hv]

/-- C5 witness: an inactive user with the right password authenticates. -/
theorem C5_witness :
    authenticate_user
        [("bob@x.com",
          { username := "bob", email := "bob@x.com",
            hashed_password := get_password_hash "pw" "ABCDEFGHIJKLMNOPQRSTUV",
            is_active := false })]
        "bob@x.com" "pw" =
      .ok (some (User.ofDict
        { username := "bob", email := "bob@x.com",
          hashed_password := get_password_hash "pw" "ABCDEFGHIJKLMNOPQRSTUV",
          is_active := false })) :=
  C5_theorem _ "bob@x.com" "pw" "ABCDEFGHIJKLMNOPQRSTUV" _
    (by decide) rfl (by decide) rfl

/-- C6: the store lookup matches keys by exact, case-sensitive string
equality (any hit carries a key literally equal to the query); hence with
`admin@example.com` stored and `ADMIN@EXAMPLE.COM` absent, both `get_user`
and `authenticate_user` on the uppercase query fail. -/
theorem C6_theorem (st : Store) (pw : String)
    (hlower : "admin@example.com" ∈ st.map Prod.fst)
    (hupper : "ADMIN@EXAMPLE.COM" ∉ st.map Prod.fst) :
    (∀ e d, st.lookup e = some d → (e, d) ∈ st) ∧
    get_user st "ADMIN@EXAMPLE.COM" = none ∧
    authenticate_user st "ADMIN@EXAMPLE.COM" pw = .ok none := by
  have hnone : st.lookup "ADMIN@EXAMPLE.COM" = none :=
    lookup_eq_none_of_not_mem hupper
  refine ⟨fun e d h => lookup_mem h, ?_, ?_⟩
  · unfold get_user
    rw [hnone]
  · unfold authenticate_user get_user
    rw [hnone]

/-- C6 witness: a store holding exactly `admin@example.com` rejects the
uppercase query. -/
theorem C6_witness :
    get_user
        [("admin@example.com",
          { username := "admin", email := "admin@example.com",
            hashed_password := get_password_hash "password" "ABCDEFGHIJKLMNOPQRSTUV",
            is_active := true })]
        "ADMIN@EXAMPLE.COM" = none ∧
    authenticate_user
        [("admin@example.com",
          { username := "admin", email := "admin@example.com",
            hashed_password := get_password_hash "password" "ABCDEFGHIJKLMNOPQRSTUV",
            is_active := true })]
        "ADMIN@EXAMPLE.COM" "password" = .ok none :=
  (C6_theorem _ "password" (by decide) (by decide)).2

/-- C7: two `get_password_hash` calls on the same password with distinct
salts (one fresh 22-character salt drawn per call) produce distinct digest
strings — the digest embeds the salt verbatim. -/
theorem C7_theorem (P s1 s2 : String)
    (h1 : s1.length = 22) (h2 : s2.length = 22) (hne : s1 ≠ s2) :
    get_password_hash P s1 ≠ get_password_hash P s2 := by
  intro heq
  apply hne
  have hd : (get_password_hash P s1).data = (get_password_hash P s2).data := by
    rw [heq]
  have h1' : bcryptIdent.data ++ (s1.data ++ (bcryptChecksum P s1).data)
      = bcryptIdent.data ++ (s2.data ++ (bcryptChecksum P s2).data) := by
    simpa [get_password_hash, cryptContextHash, data_mkBcryptDigest] using hd
  have h2' : s1.data ++ (bcryptChecksum P s1).data
      = s2.data ++ (bcryptChecksum P s2).data :=
    List.append_cancel_left h1'
  have hlen : s1.data.length = s2.data.length := by
    have ha : s1.data.length = 22 := h1
    have hb : s2.data.length = 22 := h2
    rw [ha, hb]
  have hs : s1.data = s2.data := (List.append_inj h2' hlen).1
  exact congrArg String.mk hs

/-- C7 witness: two concrete distinct salts give distinct digests. -/
theorem C7_witness :
    get_password_hash "password" "ABCDEFGHIJKLMNOPQRSTUV" ≠
      get_password_hash "password" "0BCDEFGHIJKLMNOPQRSTUV" :=
  C7_theorem "password" _ _ (by decide) (by decide) (by decide)

/-- C8: any `User` returned by `authenticate_user` is the field projection
of the stored record, and its serialized form has exactly the keys
`email`, `username`, `is_active`, `roles` — no password, hash or timestamp
key under any name. -/
theorem C8_theorem (st : Store) (email password : String) (u : User)
    (hauth : authenticate_user st email password = .ok (some u)) :
    (User.model_dump u).map Prod.fst = ["email", "username", "is_active", "roles"] ∧
    (∀ k ∈ (User.model_dump u).map Prod.fst,
      k ≠ "hashed_password" ∧ k ≠ "password" ∧
      k ≠ "created_at" ∧ k ≠ "updated_at") ∧
    (∃ d, st.lookup email = some d ∧ u = User.ofDict d) := by
  refine ⟨rfl, ?_, ?_⟩
  · intro k hk
    have hk' : k = "email" ∨ k = "username" ∨ k = "is_active" ∨ k = "roles" := by
      simpa [User.model_dump] using hk
    rcases hk' with h | h | h | h <;> subst h <;> exact (by decide)
  · rw [authenticate_user_eq] at hauth
    split at hauth
    · exact absurd hauth (by simp)
    · rename_i d hl
      refine ⟨d, hl, ?_⟩
      split at hauth
      · exact absurd hauth (by simp)
      · rename_i b hv
        cases b with
        | false => exact absurd hauth (by simp)
        | true =>
          have : some (User.ofDict d) = some u := by simpa using hauth
          simpa using this.symm

/-- C8 witness: a successful concrete authentication, whose result
satisfies the projection and key properties. -/
theorem C8_witness :
    (User.model_dump
        { email := "admin@cycloveda.com", username := "admin",
          is_active := true, roles := [] }).map Prod.fst =
      ["email", "username", "is_active", "roles"] :=
  (C8_theorem (initialize_mock_users "ABCDEFGHIJKLMNOPQRSTUV")
    "admin@cycloveda.com" "password"
    { email := "admin@cycloveda.com", username := "admin",
      is_active := true, roles := [] }
    (by decide)).1

/-- C9 counterexample: with the scheme right and a well-signed token whose
subject is absent from the store, the guard rejects with detail
`User not found`, not the single reason `Invalid or expired token` — the
two sub-cases are distinguishable. -/
theorem C9_counterexample :
    get_current_user
        (some { scheme := "Bearer",
                credentials :=
                  joseEncode { sub := some "ghost@x.com", scopes := none, exp := some 100 }
                    SECRET_KEY ALGORITHM })
        [] 0 = .httpError 401 "User not found" ∧
    GuardResult.httpError 401 "User not found" ≠
      .httpError 401 "Invalid or expired token" := by
  constructor
  · decide
  · decide

/-- C9 (amended): with the header present and the right scheme, both
token-resolution failures are 401 rejections, but with distinct details:
a failed decode gives `Invalid or expired token`, while a decoded token
whose subject is absent from the store gives `User not found`. -/
theorem C9_theorem (c : HTTPAuthCreds) (st : Store) (now : Int)
    (hscheme : pyLower c.scheme = pyLower AUTH_SCHEME) :
    (verify_token c.credentials now = none →
      get_current_user (some c) st now = .httpError 401 "Invalid or expired token") ∧
    (∀ td e, verify_token c.credentials now = some td → td.email = some e →
      st.lookup e = none →
      get_current_user (some c) st now = .httpError 401 "User not found") := by
  constructor
  · intro hv
    rw [get_current_user_some, if_neg (fun hne => hne hscheme), hv]
    rfl
  · intro td e hv he hl
    rw [get_current_user_some, if_neg (fun hne => hne hscheme), hv]
    simp only [he]
    unfold get_user
    rw [hl]
    rfl

/-- C9 witness: concrete instances of both sub-cases. -/
theorem C9_witness :
    get_current_user (some { scheme := "Bearer", credentials := .malformed "x" }) [] 0 =
      .httpError 401 "Invalid or expired token" ∧
    get_current_user
        (some { scheme := "Bearer",
                credentials :=
                  joseEncode { sub := some "ghost@x.com", scopes := none, exp := some 100 }
                    SECRET_KEY ALGORITHM })
        [] 0 = .httpError 401 "User not found" :=
  ⟨(C9_theorem { scheme := "Bearer", credentials := .malformed "x" } [] 0
      (by decide)).1 rfl,
   (C9_theorem _ [] 0 (by decide)).2
      { email := some "ghost@x.com", scopes := [], exp := none } "ghost@x.com"
      (by decide) rfl rfl⟩

/-- C10: a failed `authenticate_user` call (result `None`) leaves the store
it threads through unchanged — no branch of the function writes to it. -/
theorem C10_theorem (st : Store) (email password : String)
    (hfail : (authenticate_user_st st email password).1 = .ok none) :
    (authenticate_user_st st email password).2 = st := by
  unfold authenticate_user_st get_user_st get_user
  cases hl : st.lookup email with
  | none => rfl
  | some d =>
    cases hv : verify_password password d.hashed_password with
    | error e => simp [hl, hv]
    | ok b => cases b <;> simp [hl, hv]

/-- C10 witness: a concrete failed login against the seeded store leaves it
unchanged. -/
theorem C10_witness :
    (authenticate_user_st (initialize_mock_users "ABCDEFGHIJKLMNOPQRSTUV")
        "nobody@x.com" "password").2 =
      initialize_mock_users "ABCDEFGHIJKLMNOPQRSTUV" :=
  C10_theorem (initialize_mock_users "ABCDEFGHIJKLMNOPQRSTUV")
    "nobody@x.com" "password" (by decide)

end CycloVeda
